import Mathlib

/-!
Shallow embedding of the RAG orchestration core of the `bos.bs` repository.

Two engine variants exist in the source:
* the Vertex-AI variant (`BibleRAGSystem` in the first unnamed service file):
  `searchSimilarVerses`, `generateResponse`, `fallbackTextSearch`,
  `extractSuggestedQuestions`, `calculateConfidence`, `processAllVerses`;
* the File-Search variant (`apps/api/src/services/ragSystem.ts`):
  provider-managed retrieval, `parseChunkToVerse`, positional relevance
  scores `Math.max(0.7, 1.0 - index * 0.05)`.

Numeric scores are embedded as rationals (`ℚ`); JavaScript number formatting
(`toFixed`) and wall-clock time are modelled as opaque data supplied by the
environment, since no claim depends on them.  External collaborators
(Supabase tables, the vector index, the generative model) are modelled as an
explicit environment record; the functions below mirror the control flow of
the source methods over that environment.
-/

namespace BibleRAG

/-! ## Definitions -/

/-- Testament tag of a verse row (`'Old' | 'New'` in the source). -/
inductive Testament
  | Old
  | New
  deriving DecidableEq, Repr

/-- Testament filter of a query (`'Old' | 'New' | 'both'`). -/
inductive TestamentFilter
  | Old
  | New
  | Both
  deriving DecidableEq, Repr

/-- A row of the `bible_verses` table (the fields selected by the source). -/
structure BibleVerse where
  id : Nat
  book_id : Nat
  chapter : Nat
  verse : Nat
  text : String
  book_name : String
  reference : String
  testament : Testament
  deriving DecidableEq, Repr

/-- `RAGQuery` from the source.  `contextVerses` is optional in TypeScript, so
it is embedded as an `Option`; the code guards on
`ragQuery.contextVerses && ragQuery.contextVerses.length > 0`. -/
structure RAGQuery where
  query : String
  maxContextVerses : Option Nat := none
  minRelevanceScore : Option ℚ := none
  testamentFilter : Option TestamentFilter := none
  contextVerses : Option (List Nat) := none
  deriving DecidableEq, Repr

/-- `RAGResult` from the source. -/
structure RAGResult where
  response : String
  contextVerses : List BibleVerse
  relevanceScores : List ℚ
  processingTimeMs : Nat
  suggestedQuestions : List String
  confidence : ℚ
  deriving DecidableEq, Repr

/-- `Math.min` on two numbers (kernel-computable form). -/
def jsMin (a b : ℚ) : ℚ := if a ≤ b then a else b

/-- `Math.max` on two numbers (kernel-computable form). -/
def jsMax (a b : ℚ) : ℚ := if a ≤ b then b else a

/-- `calculateConfidence` from the source:
`if empty then 0.1 else min(0.95, max * 0.7 + avg * 0.3)` where `avg` is
`reduce((a,b) => a+b, 0) / length` (i.e. the list sum divided by the length)
and `max` is `Math.max(...relevanceScores)`. -/
def calculateConfidence (relevanceScores : List ℚ) : ℚ :=
  match relevanceScores with
  | [] => 0.1
  | r :: rest =>
      let avgRelevance := (r :: rest).sum / ((r :: rest).length : ℚ)
      let maxRelevance := rest.foldl jsMax r
      jsMin 0.95 (maxRelevance * 0.7 + avgRelevance * 0.3)

/-- Counters of calls issued to the external collaborators plus one counter
for invocations of the internal `searchSimilarVerses` helper.  The source has
no instrumentation; the counters are threaded through the embedding so that
"X is never invoked" claims can be stated. -/
structure Trace where
  embedCalls : Nat := 0
  vectorCalls : Nat := 0
  textCalls : Nat := 0
  fetchCalls : Nat := 0
  searchCalls : Nat := 0
  generateCalls : Nat := 0
  deriving DecidableEq, Repr

/-- External collaborators of the Vertex-variant `BibleRAGSystem`, one record
per request.

* `embed` models `generateQueryEmbedding` (which catches its own errors and
  returns `null`, hence `Option`);
* `vectorIndex` holds the rows of the `verse_embeddings` join available to
  the vector query, paired with the store-computed distance value selected
  under the alias `similarity`; `vectorError` models a store error on that
  query;
* `textIndex` holds the `bible_verses` rows matching the full-text search for
  a query, in store order; `textError` a store error on it;
* `verseTable` is the `bible_verses` table in store order and `fetchError`
  models an error of the `.in('id', ...)` fetch;
* `generate` models `generativeModel.generateContent(...).response.text()`,
  whose failure is the only exception reaching `generateResponse`'s `catch`;
* `toFixed1` models JavaScript `Number.prototype.toFixed(1)` (IEEE-float
  string formatting, opaque here — no claim depends on it);
* `elapsedMs` models the `Date.now()` wall-clock difference. -/
structure Env where
  embed : String → Option (List ℚ)
  vectorIndex : List (BibleVerse × ℚ)
  vectorError : Bool
  textIndex : String → List BibleVerse
  textError : Bool
  verseTable : List BibleVerse
  fetchError : Bool
  generate : String → Except String String
  toFixed1 : ℚ → String
  elapsedMs : Nat

/-- The conditional `.eq('testament', t)` filter: applied only when a
testament is given and is not `'both'`. -/
def testamentKeeps (t : Option TestamentFilter) (v : Testament) : Bool :=
  match t, v with
  | some TestamentFilter.Old, Testament.Old => true
  | some TestamentFilter.Old, Testament.New => false
  | some TestamentFilter.New, Testament.New => true
  | some TestamentFilter.New, Testament.Old => false
  | some TestamentFilter.Both, _ => true
  | none, _ => true

/-- `ORDER BY similarity DESC`: larger distance value first. -/
def distanceDescOrder (a b : BibleVerse × ℚ) : Prop := b.2 ≤ a.2

instance : DecidableRel distanceDescOrder :=
  fun a b => inferInstanceAs (Decidable (b.2 ≤ a.2))

instance : IsTotal (BibleVerse × ℚ) distanceDescOrder :=
  ⟨fun a b => le_total b.2 a.2⟩

instance : IsTrans (BibleVerse × ℚ) distanceDescOrder :=
  ⟨fun _ _ _ h1 h2 => le_trans h2 h1⟩

/-- The rows returned by the vector query of `searchSimilarVerses`: the store
applies the filters `.gte('similarity', 0.7)` (on the distance value aliased
`similarity`) and the conditional testament filter, then
`.order('similarity', { ascending: false })`, then `.limit(limit)`. -/
def vectorQueryRows (env : Env) (limit : Nat)
    (testament : Option TestamentFilter) : List (BibleVerse × ℚ) :=
  (List.insertionSort distanceDescOrder
      (env.vectorIndex.filter
        (fun p => decide ((0.7 : ℚ) ≤ p.2) && testamentKeeps testament p.1.testament))).take
    limit

/-- `fallbackTextSearch` from the source: full-text search on `bible_verses`
with the same testament filter and limit; on a store error it returns `[]`;
every hit gets the fixed similarity `0.8`. -/
def fallbackTextSearch (env : Env) (query : String) (limit : Nat)
    (testament : Option TestamentFilter) : List (BibleVerse × ℚ) :=
  let rows := ((env.textIndex query).filter
      (fun v => testamentKeeps testament v.testament)).take limit
  if env.textError then [] else rows.map (fun v => (v, 0.8))

/-- `searchSimilarVerses` from the source.  The `try` block embeds the query
(`generateQueryEmbedding`; a `null` result throws), issues the vector query
(a store error throws), and maps each row to
`{ verse, similarity: 1 - distance }`; any thrown error is caught and routed
to `fallbackTextSearch`.  Note that the query embedding is not part of the
issued store query in the source, so the rows do not depend on it. -/
def searchSimilarVerses (env : Env) (query : String) (limit : Nat)
    (testament : Option TestamentFilter) : List (BibleVerse × ℚ) × Trace :=
  match env.embed query with
  | none =>
      (fallbackTextSearch env query limit testament,
       { embedCalls := 1, textCalls := 1 })
  | some _ =>
      if env.vectorError then
        (fallbackTextSearch env query limit testament,
         { embedCalls := 1, vectorCalls := 1, textCalls := 1 })
      else
        ((vectorQueryRows env limit testament).map (fun p => (p.1, 1 - p.2)),
         { embedCalls := 1, vectorCalls := 1 })

/-- Sample verse rows shared by the concrete scenarios below. -/
def vGen1 : BibleVerse :=
  { id := 1, book_id := 1, chapter := 1, verse := 1, text := "In the beginning",
    book_name := "Genesis", reference := "Genesis 1:1", testament := .Old }

def vGen2 : BibleVerse :=
  { id := 2, book_id := 1, chapter := 1, verse := 2, text := "And the earth",
    book_name := "Genesis", reference := "Genesis 1:2", testament := .Old }

/-- Environment of the C3 counterexample: a successful embedding and a
vector index holding two rows at distances `0.8` and `0.9`. -/
def envSortCex : Env :=
  { embed := fun _ => some [0]
    vectorIndex := [(vGen1, 0.8), (vGen2, 0.9)]
    vectorError := false
    textIndex := fun _ => []
    textError := false
    verseTable := []
    fetchError := false
    generate := fun _ => Except.ok ""
    toFixed1 := fun _ => ""
    elapsedMs := 0 }

/-- Environment of the C4 counterexample: embedding succeeds, the vector
query succeeds but matches zero rows, while the full-text index has a
matching passage. -/
def envZeroCex : Env :=
  { embed := fun _ => some [0]
    vectorIndex := []
    vectorError := false
    textIndex := fun _ => [vGen1]
    textError := false
    verseTable := []
    fetchError := false
    generate := fun _ => Except.ok ""
    toFixed1 := fun _ => ""
    elapsedMs := 0 }

/-- Environment of the C4 witness: the embedding provider fails
deterministically while the store has a matching passage. -/
def envEmbedFail : Env :=
  { embed := fun _ => none
    vectorIndex := []
    vectorError := false
    textIndex := fun _ => [vGen1]
    textError := false
    verseTable := []
    fetchError := false
    generate := fun _ => Except.ok ""
    toFixed1 := fun _ => ""
    elapsedMs := 0 }

/-- Characters of a string up to and including the first `'?'`; `none` when
no `'?'` occurs.  This is the shape of a match of a JavaScript regex
`<literal>[^?]*\?` starting at the current position (the pattern literals
below contain no `'?'`, and greedy `[^?]*` runs to the first `'?'`). -/
def takeUntilQmark : List Char → Option (List Char)
  | [] => none
  | c :: rest =>
      if c = '?' then some [c]
      else (takeUntilQmark rest).map (fun m => c :: m)

/-- All matches of the pattern `<pat>[^?]*\?` over the input, scanning left
to right without overlap, as a JavaScript global regex `match` does: at each
position, if the literal is a prefix and a `'?'` follows somewhere, the
match runs through that first `'?'` and scanning resumes after it;
otherwise scanning advances one character.  (A match `m` always satisfies
`1 ≤ m.length`, so resuming at `(c :: rest).drop m.length` is written as
`rest.drop (m.length - 1)` to make the recursion structurally
decreasing.) -/
def findMatches (pat : List Char) : List Char → List (List Char)
  | [] => []
  | c :: rest =>
      if pat.isPrefixOf (c :: rest) then
        match takeUntilQmark (c :: rest) with
        | some m => m :: findMatches pat (rest.drop (m.length - 1))
        | none => findMatches pat rest
      else findMatches pat rest
termination_by cs => cs.length
decreasing_by
  · simp only [List.length_drop, List.length_cons]
    omega
  · simp
  · simp

/-- The three question regex literals of `extractSuggestedQuestions`. -/
def questionPatterns : List (List Char) :=
  [("What does").toList, ("How can").toList, ("Why").toList]

/-- `extractSuggestedQuestions` from the source: up to 2 matches per
pattern, a fixed default set of 3 questions when nothing matched, capped at
5 in total. -/
def extractSuggestedQuestions (response : String) : List String :=
  let questions := (questionPatterns.map
      (fun pat => ((findMatches pat response.toList).take 2).map
        (fun m => String.mk m))).flatten
  let questions :=
    if questions.isEmpty then
      ["What is the historical context of this passage?",
       "How does this apply to daily life?",
       "What are related biblical themes?"]
    else questions
  questions.take 5

/-- `buildRAGPrompt` from the source (template literal, interpolations made
explicit). -/
def buildRAGPrompt (query : String) (contextText : String) : String :=
  "You are a knowledgeable Bible study assistant using the King James Version (KJV) Bible. \nProvide thoughtful, theologically sound insights based on the Scripture context provided.\n\nCONTEXT FROM SCRIPTURE:\n"
    ++ contextText
    ++ "\n\nUSER QUESTION: "
    ++ query
    ++ "\n\nINSTRUCTIONS:\n1. Base your answer primarily on the provided Scripture context\n2. Cite specific verses using Book Chapter:Verse format\n3. Provide historical and cultural context when relevant\n4. Be theologically careful and humble\n5. Suggest related passages for deeper study\n6. Focus on clear, practical application when appropriate\n7. If the context doesn\x27t fully answer the question, acknowledge the limitations\n\nPlease provide a comprehensive and helpful response:"

/-- The fixed apology text of the `catch` branch of `generateResponse`,
interpolating the original query. -/
def apologyFor (query : String) : String :=
  "I apologize, but I encountered an error while processing your query about \""
    ++ query
    ++ "\". Please try rephrasing your question or contact support if the issue persists."

/-- Step 2 of `generateResponse`: one line per context verse,
`"<reference>: <text> [Relevance: <pct>%]"`, newline-joined (the percentage
formatting is the environment's opaque `toFixed1`). -/
def contextTextOf (env : Env) (contextVerses : List BibleVerse)
    (relevanceScores : List ℚ) : String :=
  String.intercalate "\n" ((contextVerses.zip relevanceScores).map
    (fun p => p.1.reference ++ ": " ++ p.1.text ++ " [Relevance: "
      ++ env.toFixed1 (p.2 * 100) ++ "%]"))

/-- JavaScript `a || b` on an optional number: `undefined` and `0` are both
falsy (`ragQuery.maxContextVerses || 8`). -/
def jsOrNat (a : Option Nat) (b : Nat) : Nat :=
  match a with
  | some n => if n = 0 then b else n
  | none => b

/-- Step 1 of `generateResponse`: context resolution.  When
`ragQuery.contextVerses` is present and non-empty the passages are fetched
by id (`.in('id', ids)`, table order preserved); a fetch error leaves both
lists empty (the source checks `!error && data`).  Otherwise
`searchSimilarVerses` is invoked with `maxContextVerses || 8` and the
testament filter. -/
def resolveContext (env : Env) (q : RAGQuery) :
    (List BibleVerse × List ℚ) × Trace :=
  match q.contextVerses with
  | some (i :: is) =>
      if env.fetchError then (([], []), { fetchCalls := 1 })
      else
        let rows := env.verseTable.filter (fun v => (i :: is).contains v.id)
        ((rows, List.replicate rows.length 1.0), { fetchCalls := 1 })
  | _ =>
      let s := searchSimilarVerses env q.query
        (jsOrNat q.maxContextVerses 8) q.testamentFilter
      ((s.1.map Prod.fst, s.1.map Prod.snd), { s.2 with searchCalls := 1 })

/-- The prompt `generateResponse` sends to the generative model. -/
def promptOf (env : Env) (q : RAGQuery) : String :=
  buildRAGPrompt q.query
    (contextTextOf env (resolveContext env q).1.1 (resolveContext env q).1.2)

/-- `generateResponse` from the source.  Within the `try` block the only
statement whose failure reaches the `catch` is the generation call: the
explicit-id fetch checks its error flag without throwing,
`searchSimilarVerses` catches internally, and `fallbackTextSearch` maps
store errors to `[]`.  The `catch` branch returns the fixed fallback
result. -/
def generateResponse (env : Env) (q : RAGQuery) : RAGResult × Trace :=
  let rc := resolveContext env q
  match env.generate (promptOf env q) with
  | Except.ok response =>
      ({ response := response
         contextVerses := rc.1.1
         relevanceScores := rc.1.2
         processingTimeMs := env.elapsedMs
         suggestedQuestions := extractSuggestedQuestions response
         confidence := calculateConfidence rc.1.2 },
       { rc.2 with generateCalls := 1 })
  | Except.error _ =>
      ({ response := apologyFor q.query
         contextVerses := []
         relevanceScores := []
         processingTimeMs := env.elapsedMs
         suggestedQuestions := []
         confidence := 0.1 },
       { rc.2 with generateCalls := 1 })

/-- Environment of the C1 witness: the generative provider fails
deterministically. -/
def envGenFail : Env :=
  { embed := fun _ => some [0]
    vectorIndex := [(vGen1, 0.8)]
    vectorError := false
    textIndex := fun _ => []
    textError := false
    verseTable := []
    fetchError := false
    generate := fun _ => Except.error "quota"
    toFixed1 := fun _ => ""
    elapsedMs := 7 }

/-- Environment of the C2 witness. -/
def envExplicitIds : Env :=
  { embed := fun _ => some [0]
    vectorIndex := []
    vectorError := false
    textIndex := fun _ => []
    textError := false
    verseTable := [vGen1, vGen2]
    fetchError := false
    generate := fun _ => Except.ok "An answer."
    toFixed1 := fun _ => ""
    elapsedMs := 0 }

/-- The C2 witness query: explicit context verse ids `[1]`. -/
def qExplicit : RAGQuery := { query := "creation", contextVerses := some [1] }

/-- Environment of the C7 scenarios: all collaborators healthy. -/
def envNoValidation : Env :=
  { embed := fun _ => some [0]
    vectorIndex := []
    vectorError := false
    textIndex := fun _ => []
    textError := false
    verseTable := []
    fetchError := false
    generate := fun _ => Except.ok "The verse means hope."
    toFixed1 := fun _ => ""
    elapsedMs := 5 }

/-- Environment of the C6 counterexample: a single vector hit at distance
`0.95` (which passes the `gte 0.7` distance filter) yields relevance
`1 - 0.95 = 0.05`. -/
def envLowConfidence : Env :=
  { embed := fun _ => some [0]
    vectorIndex := [(vGen1, 0.95)]
    vectorError := false
    textIndex := fun _ => []
    textError := false
    verseTable := []
    fetchError := false
    generate := fun _ => Except.ok "ok"
    toFixed1 := fun _ => ""
    elapsedMs := 0 }

/-- The page-scan loop of `processAllVerses`: batch size 50, offset starting
at 0; each iteration issues one `.range(offset, offset + 49)` scan of
`bible_verses` (a page of up to 50 rows from the store's row list) and the
loop breaks when a page comes back empty, otherwise advances the offset by
the batch size.  The result records the row count of every scan call in
order, the final empty page included.  (The source also breaks on a store
error; store errors are not modelled here.  The per-page embedding work is
irrelevant to the page-call behaviour.) -/
def processAllVersesScan (rows : List BibleVerse) (offset : Nat) : List Nat :=
  match hpage : (rows.drop offset).take 50 with
  | [] => [0]
  | v :: rest => (v :: rest).length :: processAllVersesScan rows (offset + 50)
termination_by rows.length - offset
decreasing_by
  have hlt : offset < rows.length := by
    by_contra hc
    rw [List.drop_eq_nil_of_le (Nat.le_of_not_lt hc)] at hpage
    simp at hpage
  omega

/-- A grounding chunk returned by the provider-managed retrieval tool:
`chunk.retrievedContext?.text` and `chunk.text`, each possibly absent. -/
structure GroundingChunk where
  retrievedText : Option String
  text : Option String
  deriving DecidableEq, Repr

/-- JavaScript `a || b` on an optional string: `undefined` and `""` are both
falsy. -/
def jsOrString (a : Option String) (b : String) : String :=
  match a with
  | some s => if s = "" then b else s
  | none => b

/-- `chunk.retrievedContext?.text || chunk.text || ''` from
`parseChunkToVerse`. -/
def chunkTextOf (c : GroundingChunk) : String :=
  jsOrString c.retrievedText (jsOrString c.text "")

/-- JavaScript regex `\w` (ASCII word character). -/
def isWordChar (c : Char) : Bool := c.isAlphanum || c = '_'

/-- JavaScript regex `\d`. -/
def isDigitChar (c : Char) : Bool := c.isDigit

/-- JavaScript regex `\s` (the common whitespace characters). -/
def isSpaceChar (c : Char) : Bool :=
  c = ' ' || c = '\t' || c = '\n' || c = '\r' || c = '\x0b' || c = '\x0c'

/-- `parseInt` on a non-empty digit string. -/
def natOfDigits (ds : List Char) : Nat :=
  ds.foldl (fun n c => n * 10 + (c.toNat - ('0').toNat)) 0

/-- Matches `\w+\s+(\d+):(\d+)` at the start of the input, returning the
word characters and the two numbers.  Greedy runs are exact here: the
character classes `\w`, `\s`, `\d` and the literal `':'` are pairwise
disjoint at each boundary, so no backtracking within this fragment can
succeed where the greedy parse fails. -/
def matchCore (cs : List Char) : Option (List Char × Nat × Nat) :=
  let word := cs.takeWhile isWordChar
  if word.isEmpty then none
  else
    let r1 := cs.dropWhile isWordChar
    if (r1.takeWhile isSpaceChar).isEmpty then none
    else
      let r2 := r1.dropWhile isSpaceChar
      let d1 := r2.takeWhile isDigitChar
      if d1.isEmpty then none
      else
        match r2.dropWhile isDigitChar with
        | ':' :: r3 =>
            let d2 := r3.takeWhile isDigitChar
            if d2.isEmpty then none
            else some (word, natOfDigits d1, natOfDigits d2)
        | _ => none

/-- The `\d?` alternative of the verse-reference regex declined (or failed):
try `\s?` then the core.  When the leading character is a space but the
core fails after it, the regex backtracks `\s?` to empty, and `\w+` then
fails on the space itself — which is exactly what `matchCore` returns on
the unshifted input. -/
def matchNoDigit (cs : List Char) : Option (List Char × Nat × Nat) :=
  match cs with
  | [] => none
  | s :: rest =>
      if isSpaceChar s then
        match matchCore rest with
        | some (w, c, v) => some (s :: w, c, v)
        | none => matchCore cs
      else matchCore cs

/-- The verse-reference regex `/^(\d?\s?\w+)\s+(\d+):(\d+)/i` of
`parseChunkToVerse`, with the regex's backtracking order over the optional
`\d?` and `\s?`: prefer consuming them, fall back to the shorter
alternatives on failure.  Returns (capture group 1, chapter, verse).  The
`/i` flag is immaterial: every character class involved is
case-insensitive. -/
def matchVerseRef (cs : List Char) : Option (List Char × Nat × Nat) :=
  match cs with
  | [] => none
  | d :: rest =>
      if isDigitChar d then
        match rest with
        | s :: rest2 =>
            if isSpaceChar s then
              match matchCore rest2 with
              | some (w, c, v) => some (d :: s :: w, c, v)
              | none =>
                  match matchCore rest with
                  | some (w, c, v) => some (d :: w, c, v)
                  | none => matchNoDigit cs
            else
              match matchCore rest with
              | some (w, c, v) => some (d :: w, c, v)
              | none => matchNoDigit cs
        | [] => matchNoDigit cs
      else matchNoDigit cs

/-- `bookName.replace(/\s+/g, ' ')`: collapse every whitespace run to a
single space. -/
def collapseSpaces : List Char → List Char
  | [] => []
  | c :: rest =>
      if isSpaceChar c then ' ' :: collapseSpaces (rest.dropWhile isSpaceChar)
      else c :: collapseSpaces rest
termination_by cs => cs.length
decreasing_by
  · have := (List.dropWhile_sublist (l := rest) isSpaceChar).length_le
    simp only [List.length_cons]
    omega
  · simp

/-- `chunkText.replace(/^.*?:\d+\s*/, '')`: the lazy `.*?` (which cannot
cross a newline) runs to the first `':'` that is followed by a digit; the
match then swallows the digits and any following whitespace, and is removed.
`none` when the pattern does not match (the text is then unchanged). -/
def stripGo : List Char → Option (List Char)
  | [] => none
  | c :: rest =>
      if (c == ':') && (match rest with | d :: _ => isDigitChar d | [] => false) then
        some ((rest.dropWhile isDigitChar).dropWhile isSpaceChar)
      else if c == '\n' then none
      else stripGo rest

/-- The reference-prefix stripping applied to the matched chunk text. -/
def stripRefPrefix (s : String) : String :=
  match stripGo s.toList with
  | some rest => String.mk rest
  | none => s

/-- The New Testament book list of `getTestamentForBook`. -/
def newTestamentBooks : List String :=
  ["Matthew", "Mark", "Luke", "John", "Acts",
   "Romans", "1 Corinthians", "2 Corinthians", "Galatians", "Ephesians",
   "Philippians", "Colossians", "1 Thessalonians", "2 Thessalonians",
   "1 Timothy", "2 Timothy", "Titus", "Philemon", "Hebrews",
   "James", "1 Peter", "2 Peter", "1 John", "2 John", "3 John",
   "Jude", "Revelation"]

/-- `getTestamentForBook` from the source. -/
def getTestamentForBook (bookName : String) : Testament :=
  if newTestamentBooks.contains bookName then Testament.New else Testament.Old

/-- `parseChunkToVerse` from the source.  On a reference match the captured
book name has its whitespace collapsed, the chapter/verse are parsed, and
the verse body is the chunk text with the reference prefix stripped and
trimmed; otherwise the synthetic placeholder (`id = 0`,
`book_name = "Bible Context"`, `reference = "Context"`) is returned.  The
`try/catch` wrapper of the source is unreachable here: the body is total. -/
def parseChunkToVerse (chunk : GroundingChunk) : BibleVerse :=
  let chunkText := chunkTextOf chunk
  match matchVerseRef chunkText.toList with
  | some (g1, chapter, verse) =>
      let bookName := String.mk (collapseSpaces g1)
      { id := 0
        book_id := 0
        chapter := chapter
        verse := verse
        text := (stripRefPrefix chunkText).trim
        book_name := bookName
        reference := bookName ++ " " ++ toString chapter ++ ":" ++ toString verse
        testament := getTestamentForBook bookName }
  | none =>
      { id := 0
        book_id := 0
        chapter := 1
        verse := 1
        text := chunkText
        book_name := "Bible Context"
        reference := "Context"
        testament := Testament.Old }

/-- A response of the generative provider in the File-Search variant: the
generated text plus the optional `groundingMetadata.groundingChunks`
list. -/
structure FSResponse where
  text : String
  groundingChunks : Option (List GroundingChunk)
  deriving DecidableEq, Repr

/-- Environment of the File-Search variant: whether
`initializeFileSearchStore` has populated `fileSearchStore` (its absence
throws, landing in the `catch`), and the provider call.  The file-search
tool configuration (store name, `maxResults = maxContextVerses || 8`,
metadata filter) parameterizes that provider call; since the provider is
opaque, it is folded into `generate`. -/
structure FSEnv where
  storeInitialized : Bool
  generate : String → Except String FSResponse
  elapsedMs : Nat

/-- The fallback apology of the File-Search variant (its wording differs
from the Vertex variant by one word: "if issue persists"). -/
def fsApologyFor (query : String) : String :=
  "I apologize, but I encountered an error while processing your query about \""
    ++ query
    ++ "\". Please try rephrasing your question or contact support if issue persists."

/-- The File-Search variant calls `buildRAGPrompt(ragQuery.query)` with one
argument, so the `${contextText}` interpolation renders the JavaScript
string "undefined". -/
def fsPromptOf (q : RAGQuery) : String := buildRAGPrompt q.query "undefined"

/-- The synthetic positional relevance scores of the File-Search variant:
`groundingChunks.map((_, index) => Math.max(0.7, 1.0 - index * 0.05))`. -/
def fsRelevanceScores (n : Nat) : List ℚ :=
  (List.range n).map (fun (index : Nat) => jsMax 0.7 (1.0 - (index : ℚ) * 0.05))

/-- `generateResponse` of the File-Search variant: an uninitialized store or
a failed provider call lands in the `catch` (fixed fallback); otherwise the
grounding chunks (when present) are mapped through `parseChunkToVerse` and
given the positional relevance scores, and the result is post-processed as
in the Vertex variant. -/
def generateResponseFS (env : FSEnv) (q : RAGQuery) : RAGResult :=
  if env.storeInitialized = false then
    { response := fsApologyFor q.query
      contextVerses := []
      relevanceScores := []
      processingTimeMs := env.elapsedMs
      suggestedQuestions := []
      confidence := 0.1 }
  else
    match env.generate (fsPromptOf q) with
    | Except.error _ =>
        { response := fsApologyFor q.query
          contextVerses := []
          relevanceScores := []
          processingTimeMs := env.elapsedMs
          suggestedQuestions := []
          confidence := 0.1 }
    | Except.ok resp =>
        let cr := match resp.groundingChunks with
          | some chunks =>
              (chunks.map parseChunkToVerse, fsRelevanceScores chunks.length)
          | none => (([] : List BibleVerse), ([] : List ℚ))
        { response := resp.text
          contextVerses := cr.1
          relevanceScores := cr.2
          processingTimeMs := env.elapsedMs
          suggestedQuestions := extractSuggestedQuestions resp.text
          confidence := calculateConfidence cr.2 }

/-- The chunk of the C9/C10 witnesses: no parsable locator in its text. -/
def chunkUnparsable : GroundingChunk :=
  { retrievedText := some "some retrieved context", text := none }

/-- Environment of the C9/C10 witnesses: initialized store, provider
returning one grounding chunk. -/
def fsEnvOk : FSEnv :=
  { storeInitialized := true
    generate := fun _ => Except.ok
      { text := "An answer.", groundingChunks := some [chunkUnparsable] }
    elapsedMs := 3 }

/-! ## Theorems -/

theorem jsMin_eq_min (a b : ℚ) : jsMin a b = min a b := (min_def a b).symm

theorem jsMax_eq_max (a b : ℚ) : jsMax a b = max a b := (max_def a b).symm

theorem jsMax_fun_eq : jsMax = (max : ℚ → ℚ → ℚ) := by
  funext a b; exact jsMax_eq_max a b

/-- The fold computing `Math.max(...scores)` returns an element of the list. -/
theorem foldl_jsMax_mem (r : ℚ) (l : List ℚ) : l.foldl jsMax r ∈ r :: l := by
  rw [jsMax_fun_eq]
  induction l generalizing r with
  | nil => simp
  | cons x xs ih =>
      have h := ih (max r x)
      simp only [List.foldl_cons]
      rcases List.mem_cons.mp h with h | h
      · rcases max_choice r x with hm | hm
        · rw [h, hm]; exact List.mem_cons_self _ _
        · rw [h, hm]
          exact List.mem_cons_of_mem _ (List.mem_cons_self _ _)
      · exact List.mem_cons_of_mem _ (List.mem_cons_of_mem _ h)

/-- The fold computing `Math.max(...scores)` bounds every element. -/
theorem le_foldl_jsMax (r : ℚ) (l : List ℚ) :
    r ≤ l.foldl jsMax r ∧ ∀ x ∈ l, x ≤ l.foldl jsMax r := by
  rw [jsMax_fun_eq]
  induction l generalizing r with
  | nil => simp
  | cons x xs ih =>
      have h := ih (max r x)
      simp only [List.foldl_cons]
      refine ⟨le_trans (le_max_left r x) h.1, ?_⟩
      intro y hy
      rcases List.mem_cons.mp hy with hy | hy
      · rw [hy]; exact le_trans (le_max_right r x) h.1
      · exact h.2 y hy

theorem pairwise_of_forall {α : Type} {R : α → α → Prop} (h : ∀ a b, R a b) :
    ∀ l : List α, l.Pairwise R
  | [] => .nil
  | x :: xs => .cons (fun y _ => h x y) (pairwise_of_forall h xs)

theorem fallbackTextSearch_length (env : Env) (query : String) (limit : Nat)
    (t : Option TestamentFilter) :
    (fallbackTextSearch env query limit t).length ≤ limit := by
  unfold fallbackTextSearch
  split
  · exact Nat.zero_le _
  · simp only [List.length_map, List.length_take]
    exact min_le_left _ _

theorem fallbackTextSearch_relevance (env : Env) (query : String) (limit : Nat)
    (t : Option TestamentFilter) :
    ∀ p ∈ fallbackTextSearch env query limit t, p.2 = 0.8 := by
  intro p hp
  unfold fallbackTextSearch at hp
  split at hp
  · cases hp
  · rcases List.mem_map.mp hp with ⟨v, _, hv⟩
    rw [← hv]

theorem fallbackTextSearch_pairwise_le (env : Env) (query : String)
    (limit : Nat) (t : Option TestamentFilter) :
    (fallbackTextSearch env query limit t).Pairwise (fun a b => a.2 ≤ b.2) := by
  refine List.Pairwise.imp_of_mem ?_
      (pairwise_of_forall (fun _ _ => trivial) _)
  intro a b ha hb _
  rw [fallbackTextSearch_relevance env query limit t a ha,
    fallbackTextSearch_relevance env query limit t b hb]

theorem vectorQueryRows_pairwise (env : Env) (limit : Nat)
    (t : Option TestamentFilter) :
    (vectorQueryRows env limit t).Pairwise distanceDescOrder := by
  unfold vectorQueryRows
  exact (List.sorted_insertionSort distanceDescOrder _).sublist
    (List.take_sublist _ _)

/-- C3 (amended): `searchSimilarVerses` returns at most `limit` results, but
on the vector path the store orders by the raw distance value descending
(`.order('similarity', { ascending: false })` on the distance alias), so the
relevance values `1 - d` come out in ascending order; the keyword-fallback
path is uniformly `0.8`.  In all cases the result is sorted ascending (not
descending) by relevance. -/
theorem searchSimilarVerses_limit_and_ascending (env : Env) (query : String)
    (limit : Nat) (t : Option TestamentFilter) :
    (searchSimilarVerses env query limit t).1.length ≤ limit ∧
    (searchSimilarVerses env query limit t).1.Pairwise
      (fun a b => a.2 ≤ b.2) := by
  unfold searchSimilarVerses
  cases henv : env.embed query with
  | none =>
      exact ⟨fallbackTextSearch_length env query limit t,
        fallbackTextSearch_pairwise_le env query limit t⟩
  | some e =>
      by_cases hv : env.vectorError = true
      · rw [if_pos hv]
        exact ⟨fallbackTextSearch_length env query limit t,
          fallbackTextSearch_pairwise_le env query limit t⟩
      · rw [if_neg hv]
        constructor
        · simp only [List.length_map]
          unfold vectorQueryRows
          simp only [List.length_take]
          exact min_le_left _ _
        · rw [List.pairwise_map]
          refine (vectorQueryRows_pairwise env limit t).imp ?_
          intro a b h
          exact sub_le_sub_left h 1

/-- C3 counterexample: with vector rows at distances `0.8` and `0.9` the
result is `[(vGen2, 0.1), (vGen1, 0.2)]`, which is not sorted in descending
order of relevance. -/
theorem searchSimilarVerses_not_sorted_desc_cex :
    (searchSimilarVerses envSortCex "faith" 10 none).1 =
      [(vGen2, 1 - 0.9), (vGen1, 1 - 0.8)] ∧
    ¬ (searchSimilarVerses envSortCex "faith" 10 none).1.Pairwise
        (fun a b => b.2 ≤ a.2) := by
  have hres : (searchSimilarVerses envSortCex "faith" 10 none).1 =
      [(vGen2, 1 - 0.9), (vGen1, 1 - 0.8)] := by
    norm_num [searchSimilarVerses, envSortCex, vectorQueryRows,
      testamentKeeps, List.insertionSort, List.orderedInsert,
      distanceDescOrder, List.filter]
  refine ⟨hres, ?_⟩
  rw [hres]
  intro hpw
  have := List.rel_of_pairwise_cons hpw (List.mem_singleton.mpr rfl)
  norm_num at this

theorem take_ne_nil_of_pos {α : Type} (n : Nat) (l : List α) (hn : 0 < n)
    (hl : l ≠ []) : l.take n ≠ [] := by
  cases l with
  | nil => exact absurd rfl hl
  | cons x xs =>
      cases n with
      | zero => exact absurd hn (lt_irrefl 0)
      | succ m => simp [List.take_succ_cons]

theorem fallbackTextSearch_ne_nil (env : Env) (query : String) (limit : Nat)
    (t : Option TestamentFilter) (hquiet : env.textError = false)
    (hlim : 0 < limit)
    (hm : (env.textIndex query).filter
        (fun v => testamentKeeps t v.testament) ≠ []) :
    fallbackTextSearch env query limit t ≠ [] := by
  unfold fallbackTextSearch
  rw [if_neg (by rw [hquiet]; exact Bool.false_ne_true)]
  intro hmap
  exact take_ne_nil_of_pos limit _ hlim hm (List.map_eq_nil_iff.mp hmap)

/-- C4 counterexample: when the vector path *succeeds with zero results* the
source performs no keyword search at all (the fallback only runs from the
`catch` block), so `search` returns `[]` even though the keyword search
would have returned a passage at relevance `0.8`. -/
theorem search_no_fallback_on_zero_results_cex :
    (searchSimilarVerses envZeroCex "faith" 10 none).1 = [] ∧
    (searchSimilarVerses envZeroCex "faith" 10 none).2.textCalls = 0 ∧
    envZeroCex.textIndex "faith" = [vGen1] ∧
    fallbackTextSearch envZeroCex "faith" 10 none = [(vGen1, 0.8)] :=
  ⟨rfl, rfl, rfl, rfl⟩

/-- C4 (amended): the keyword fallback runs exactly when the vector path
*throws* — the embedding comes back `null` or the vector query errors — and
not when it succeeds with zero results; every fallback hit has relevance
exactly `0.8`, and when the store has matching passages (and the limit is
positive and the text query does not error) the fallback result is
non-empty. -/
theorem searchSimilarVerses_fallback_on_throw (env : Env) (query : String)
    (limit : Nat) (t : Option TestamentFilter)
    (h : env.embed query = none ∨ env.vectorError = true) :
    (searchSimilarVerses env query limit t).1 =
      fallbackTextSearch env query limit t ∧
    (searchSimilarVerses env query limit t).2.textCalls = 1 ∧
    (∀ p ∈ (searchSimilarVerses env query limit t).1, p.2 = 0.8) ∧
    (env.textError = false → 0 < limit →
      (env.textIndex query).filter (fun v => testamentKeeps t v.testament) ≠ [] →
      (searchSimilarVerses env query limit t).1 ≠ []) := by
  have hfb : (searchSimilarVerses env query limit t).1 =
      fallbackTextSearch env query limit t ∧
      (searchSimilarVerses env query limit t).2.textCalls = 1 := by
    unfold searchSimilarVerses
    cases hemb : env.embed query with
    | none => exact ⟨rfl, rfl⟩
    | some e =>
        rcases h with h | h
        · rw [hemb] at h; cases h
        · rw [if_pos h]; exact ⟨rfl, rfl⟩
  refine ⟨hfb.1, hfb.2, ?_, ?_⟩
  · rw [hfb.1]
    exact fallbackTextSearch_relevance env query limit t
  · intro hquiet hlim hm
    rw [hfb.1]
    exact fallbackTextSearch_ne_nil env query limit t hquiet hlim hm

/-- Witness for C4 with a deterministically failing embedding provider. -/
theorem searchSimilarVerses_fallback_on_throw_witness :
    (searchSimilarVerses envEmbedFail "faith" 10 none).1 =
      fallbackTextSearch envEmbedFail "faith" 10 none ∧
    (searchSimilarVerses envEmbedFail "faith" 10 none).2.textCalls = 1 ∧
    (∀ p ∈ (searchSimilarVerses envEmbedFail "faith" 10 none).1, p.2 = 0.8) ∧
    (envEmbedFail.textError = false → 0 < 10 →
      (envEmbedFail.textIndex "faith").filter
        (fun v => testamentKeeps none v.testament) ≠ [] →
      (searchSimilarVerses envEmbedFail "faith" 10 none).1 ≠ []) :=
  searchSimilarVerses_fallback_on_throw envEmbedFail "faith" 10 none (Or.inl rfl)

/-- C1: any exception raised inside `generateResponse`'s `try` block — in
the embedding the generation call is the only statement that can throw, all
earlier stages handling their errors internally — is caught at the
orchestrator boundary and converted into the fixed fallback result: the
apology referencing the original query, empty context, empty follow-ups and
confidence `0.1`.  `generateResponse` itself is a total function of the
environment and query (it never throws). -/
theorem generateResponse_fallback_on_error (env : Env) (q : RAGQuery)
    (e : String) (h : env.generate (promptOf env q) = Except.error e) :
    (generateResponse env q).1 =
      { response := apologyFor q.query
        contextVerses := []
        relevanceScores := []
        processingTimeMs := env.elapsedMs
        suggestedQuestions := []
        confidence := 0.1 } := by
  unfold generateResponse
  rw [h]

/-- Witness for C1: a deterministic generation failure yields exactly the
fallback result. -/
theorem generateResponse_fallback_on_error_witness :
    (generateResponse envGenFail { query := "faith and works" }).1 =
      { response := apologyFor "faith and works"
        contextVerses := []
        relevanceScores := []
        processingTimeMs := 7
        suggestedQuestions := []
        confidence := 0.1 } :=
  generateResponse_fallback_on_error envGenFail { query := "faith and works" }
    "quota" rfl

theorem searchSimilarVerses_trace (env : Env) (query : String) (limit : Nat)
    (t : Option TestamentFilter) :
    (searchSimilarVerses env query limit t).2.embedCalls = 1 ∧
    (searchSimilarVerses env query limit t).2.fetchCalls = 0 ∧
    (searchSimilarVerses env query limit t).2.searchCalls = 0 ∧
    (searchSimilarVerses env query limit t).2.generateCalls = 0 := by
  unfold searchSimilarVerses
  cases env.embed query with
  | none => exact ⟨rfl, rfl, rfl, rfl⟩
  | some e =>
      by_cases hv : env.vectorError = true
      · rw [if_pos hv]; exact ⟨rfl, rfl, rfl, rfl⟩
      · rw [if_neg hv]; exact ⟨rfl, rfl, rfl, rfl⟩

/-- C2: with a non-empty explicit `contextVerses` list, `generateResponse`
never invokes `searchSimilarVerses` (and hence issues no embedding, vector
or text-search call); the context is exactly the passages fetched for those
ids, each at relevance `1.0` (when the fetch succeeds), and on a successful
generation those passages are exactly the context of the result. -/
theorem generateResponse_explicit_ids_bypass_search (env : Env)
    (q : RAGQuery) (i : Nat) (is : List Nat)
    (h : q.contextVerses = some (i :: is)) :
    ((generateResponse env q).2.searchCalls = 0 ∧
     (generateResponse env q).2.embedCalls = 0 ∧
     (generateResponse env q).2.vectorCalls = 0 ∧
     (generateResponse env q).2.textCalls = 0 ∧
     (generateResponse env q).2.fetchCalls = 1) ∧
    (env.fetchError = false →
      (resolveContext env q).1.1 =
        env.verseTable.filter (fun v => (i :: is).contains v.id) ∧
      (resolveContext env q).1.2 =
        List.replicate (env.verseTable.filter
          (fun v => (i :: is).contains v.id)).length 1.0) ∧
    (∀ response, env.generate (promptOf env q) = Except.ok response →
      (generateResponse env q).1.contextVerses = (resolveContext env q).1.1 ∧
      (generateResponse env q).1.relevanceScores =
        (resolveContext env q).1.2) := by
  have htr : (resolveContext env q).2 = { fetchCalls := 1 } := by
    unfold resolveContext
    rw [h]
    cases env.fetchError <;> rfl
  have hgen : (generateResponse env q).2 =
      { (resolveContext env q).2 with generateCalls := 1 } := by
    unfold generateResponse
    cases env.generate (promptOf env q) <;> rfl
  refine ⟨?_, ?_, ?_⟩
  · rw [hgen, htr]
    exact ⟨rfl, rfl, rfl, rfl, rfl⟩
  · intro hf
    unfold resolveContext
    rw [h, hf]
    exact ⟨rfl, rfl⟩
  · intro response hresp
    unfold generateResponse
    rw [hresp]
    exact ⟨rfl, rfl⟩

/-- Witness for C2 at explicit ids `[1]`. -/
theorem generateResponse_explicit_ids_bypass_search_witness :
    ((generateResponse envExplicitIds qExplicit).2.searchCalls = 0 ∧
     (generateResponse envExplicitIds qExplicit).2.embedCalls = 0 ∧
     (generateResponse envExplicitIds qExplicit).2.vectorCalls = 0 ∧
     (generateResponse envExplicitIds qExplicit).2.textCalls = 0 ∧
     (generateResponse envExplicitIds qExplicit).2.fetchCalls = 1) ∧
    (envExplicitIds.fetchError = false →
      (resolveContext envExplicitIds qExplicit).1.1 =
        envExplicitIds.verseTable.filter
          (fun v => ((1 : Nat) :: []).contains v.id) ∧
      (resolveContext envExplicitIds qExplicit).1.2 =
        List.replicate (envExplicitIds.verseTable.filter
          (fun v => ((1 : Nat) :: []).contains v.id)).length 1.0) ∧
    (∀ response,
      envExplicitIds.generate (promptOf envExplicitIds qExplicit) =
        Except.ok response →
      (generateResponse envExplicitIds qExplicit).1.contextVerses =
        (resolveContext envExplicitIds qExplicit).1.1 ∧
      (generateResponse envExplicitIds qExplicit).1.relevanceScores =
        (resolveContext envExplicitIds qExplicit).1.2) :=
  generateResponse_explicit_ids_bypass_search envExplicitIds qExplicit 1 [] rfl

/-- C7 counterexample: on an empty query text, `generateResponse` issues an
embedding call, a search and a generation call (rather than failing
immediately with `InvalidQuery` and making no provider calls), and returns
the provider's answer as a normal result. -/
theorem generateResponse_empty_query_calls_providers_cex :
    (generateResponse envNoValidation { query := "" }).2.embedCalls = 1 ∧
    (generateResponse envNoValidation { query := "" }).2.searchCalls = 1 ∧
    (generateResponse envNoValidation { query := "" }).2.generateCalls = 1 ∧
    ¬ ((generateResponse envNoValidation { query := "" }).2.embedCalls = 0 ∧
       (generateResponse envNoValidation { query := "" }).2.generateCalls = 0) ∧
    (generateResponse envNoValidation { query := "" }).1.response =
      "The verse means hope." := by
  refine ⟨rfl, rfl, rfl, ?_, rfl⟩
  intro hcontra
  cases hcontra.1

/-- C7 (amended): `generateResponse` performs no query validation at all:
for an empty query text with no explicit context ids it runs the normal
pipeline — one embedding call, one search invocation, one generation call,
no id fetch — and yields a `RAGResult`; there is no `InvalidQuery` outcome
in this code path (empty-query rejection happens only in the excluded HTTP
layer's request schema). -/
theorem generateResponse_no_query_validation (env : Env) (q : RAGQuery)
    (hq : q.query = "") (hc : q.contextVerses = none) :
    (generateResponse env q).2.searchCalls = 1 ∧
    (generateResponse env q).2.embedCalls = 1 ∧
    (generateResponse env q).2.generateCalls = 1 ∧
    (generateResponse env q).2.fetchCalls = 0 := by
  have htr : (resolveContext env q).2 =
      { (searchSimilarVerses env q.query (jsOrNat q.maxContextVerses 8)
          q.testamentFilter).2 with searchCalls := 1 } := by
    unfold resolveContext
    rw [hc]
  have hs := searchSimilarVerses_trace env q.query
    (jsOrNat q.maxContextVerses 8) q.testamentFilter
  have hgen : (generateResponse env q).2 =
      { (resolveContext env q).2 with generateCalls := 1 } := by
    unfold generateResponse
    cases env.generate (promptOf env q) <;> rfl
  rw [hgen, htr]
  exact ⟨rfl, hs.1, rfl, hs.2.1⟩

/-- Witness for C7 (amended) at the empty query. -/
theorem generateResponse_no_query_validation_witness :
    (generateResponse envNoValidation { query := "" }).2.searchCalls = 1 ∧
    (generateResponse envNoValidation { query := "" }).2.embedCalls = 1 ∧
    (generateResponse envNoValidation { query := "" }).2.generateCalls = 1 ∧
    (generateResponse envNoValidation { query := "" }).2.fetchCalls = 0 :=
  generateResponse_no_query_validation envNoValidation { query := "" } rfl rfl

theorem sum_ge_card_mul (c : ℚ) :
    ∀ xs : List ℚ, (∀ x ∈ xs, c ≤ x) → c * (xs.length : ℚ) ≤ xs.sum := by
  intro xs
  induction xs with
  | nil => simp
  | cons x t ih =>
      intro h
      have hx := h x (List.mem_cons_self x t)
      have ht := ih (fun y hy => h y (List.mem_cons_of_mem x hy))
      simp only [List.sum_cons, List.length_cons]
      push_cast
      linarith

theorem calculateConfidence_le_ceiling (l : List ℚ) :
    calculateConfidence l ≤ 0.95 := by
  match l with
  | [] =>
      show (0.1 : ℚ) ≤ 0.95
      norm_num
  | r :: rest =>
      show jsMin 0.95 _ ≤ 0.95
      rw [jsMin_eq_min]
      exact min_le_left _ _

theorem calculateConfidence_ge_floor (l : List ℚ)
    (h : ∀ x ∈ l, 0.1 ≤ x) : 0.1 ≤ calculateConfidence l := by
  match l with
  | [] => exact le_refl _
  | r :: rest =>
      show (0.1 : ℚ) ≤ jsMin 0.95
        (rest.foldl jsMax r * 0.7 +
          (r :: rest).sum / (((r :: rest).length : Nat) : ℚ) * 0.3)
      rw [jsMin_eq_min]
      have hmax : (0.1 : ℚ) ≤ rest.foldl jsMax r :=
        le_trans (h r (List.mem_cons_self r rest)) (le_foldl_jsMax r rest).1
      have hlen : (0 : ℚ) < (((r :: rest).length : Nat) : ℚ) := by
        simp only [List.length_cons]
        push_cast
        positivity
      have havg : (0.1 : ℚ) ≤
          (r :: rest).sum / (((r :: rest).length : Nat) : ℚ) := by
        rw [le_div_iff₀ hlen]
        exact sum_ge_card_mul 0.1 (r :: rest) h
      refine le_min (by norm_num) ?_
      nlinarith [hmax, havg]

/-- C6 counterexample: a pipeline run whose vector hit has distance `0.95`
produces the relevance list `[0.05]` and a result confidence of `0.05`,
strictly below the claimed floor `0.1`. -/
theorem pipeline_confidence_below_floor_cex :
    (generateResponse envLowConfidence { query := "faith" }).1.relevanceScores
      = [0.05] ∧
    (generateResponse envLowConfidence { query := "faith" }).1.confidence
      = 0.05 ∧
    (generateResponse envLowConfidence { query := "faith" }).1.confidence
      < 0.1 := by
  have hrs : (generateResponse envLowConfidence { query := "faith" }).1.relevanceScores
      = [0.05] := by
    norm_num [generateResponse, resolveContext, searchSimilarVerses,
      vectorQueryRows, envLowConfidence, testamentKeeps, List.insertionSort,
      List.orderedInsert, distanceDescOrder, jsOrNat, List.filter]
  have hcf : (generateResponse envLowConfidence { query := "faith" }).1.confidence
      = 0.05 := by
    norm_num [generateResponse, resolveContext, searchSimilarVerses,
      vectorQueryRows, envLowConfidence, testamentKeeps, List.insertionSort,
      List.orderedInsert, distanceDescOrder, jsOrNat, List.filter,
      calculateConfidence, jsMin, jsMax]
  exact ⟨hrs, hcf, by rw [hcf]; norm_num⟩

/-- C6 (amended): the result confidence of `generateResponse` never exceeds
`0.95`, is exactly `0.1` on an empty relevance list, and is at least `0.1`
whenever every relevance score is at least `0.1` — which covers the
explicit-passages path (all scores `1.0`) and the keyword-fallback path
(all scores `0.8`), but not the vector path, where `1 - d` under the
`gte('similarity', 0.7)` distance filter can fall below `0.1`. -/
theorem generateResponse_confidence_bounds :
    (∀ (env : Env) (q : RAGQuery),
      (generateResponse env q).1.confidence ≤ 0.95) ∧
    calculateConfidence [] = 0.1 ∧
    (∀ l : List ℚ, (∀ x ∈ l, 0.1 ≤ x) → 0.1 ≤ calculateConfidence l) := by
  refine ⟨?_, rfl, calculateConfidence_ge_floor⟩
  intro env q
  unfold generateResponse
  cases env.generate (promptOf env q) with
  | ok response =>
      exact calculateConfidence_le_ceiling (resolveContext env q).1.2
  | error e =>
      show (0.1 : ℚ) ≤ 0.95
      norm_num

/-- Witness for C6 (amended) at the relevance list `[0.1]`. -/
theorem generateResponse_confidence_bounds_witness :
    (0.1 : ℚ) ≤ calculateConfidence [0.1] :=
  generateResponse_confidence_bounds.2.2 [0.1]
    (fun x hx => le_of_eq (List.mem_singleton.mp hx).symm)

/-- One unfolding of the scan loop, with the page length computed. -/
theorem processAllVersesScan_step (rows : List BibleVerse) (offset : Nat) :
    processAllVersesScan rows offset =
      if min 50 (rows.length - offset) = 0 then [0]
      else min 50 (rows.length - offset) ::
        processAllVersesScan rows (offset + 50) := by
  have hlen : ((rows.drop offset).take 50).length =
      min 50 (rows.length - offset) := by
    simp [List.length_take, List.length_drop]
  cases hp : (rows.drop offset).take 50 with
  | nil =>
      rw [hp] at hlen
      rw [processAllVersesScan.eq_def, hp]
      rw [if_pos (by simpa using hlen.symm)]
  | cons v rest =>
      rw [hp] at hlen
      rw [processAllVersesScan.eq_def, hp]
      rw [if_neg (by rw [← hlen]; simp)]
      show (v :: rest).length :: processAllVersesScan rows (offset + 50) = _
      rw [hlen]

theorem processAllVersesScan_ne_nil (rows : List BibleVerse) (offset : Nat) :
    processAllVersesScan rows offset ≠ [] := by
  rw [processAllVersesScan_step]
  split <;> simp

theorem processAllVersesScan_last_aux :
    ∀ (fuel : Nat) (rows : List BibleVerse) (offset : Nat),
      rows.length - offset ≤ fuel →
      (processAllVersesScan rows offset).getLast? = some 0 ∧
      ∀ s ∈ (processAllVersesScan rows offset).dropLast, s ≠ 0 := by
  intro fuel
  induction fuel with
  | zero =>
      intro rows offset hf
      rw [processAllVersesScan_step, Nat.le_zero.mp hf]
      simp
  | succ n ih =>
      intro rows offset hf
      rw [processAllVersesScan_step]
      by_cases h : min 50 (rows.length - offset) = 0
      · rw [if_pos h]; simp
      · rw [if_neg h]
        have hrec := ih rows (offset + 50) (by omega)
        obtain ⟨r, rs, hr⟩ := List.exists_cons_of_ne_nil
          (processAllVersesScan_ne_nil rows (offset + 50))
        rw [hr] at hrec ⊢
        refine ⟨?_, ?_⟩
        · rw [List.getLast?_cons_cons]
          exact hrec.1
        · intro s hs
          rcases List.mem_cons.mp
              (by simpa [List.dropLast_cons₂] using hs) with hs | hs
          · rw [hs]; exact h
          · exact hrec.2 s hs

/-- C8 counterexample: over a store of exactly 120 rows the loop issues
**4** scan calls — pages of 50, 50, 20 and then the empty page that stops
the loop — not the claimed 3. -/
theorem processAllVerses_four_scan_calls_cex :
    processAllVersesScan (List.replicate 120 vGen1) 0 = [50, 50, 20, 0] ∧
    (processAllVersesScan (List.replicate 120 vGen1) 0).length ≠ 3 := by
  have h : processAllVersesScan (List.replicate 120 vGen1) 0 =
      [50, 50, 20, 0] := by
    rw [processAllVersesScan_step]
    norm_num [Nat.min_def]
    rw [processAllVersesScan_step]
    norm_num [Nat.min_def]
    rw [processAllVersesScan_step]
    norm_num [Nat.min_def]
    rw [processAllVersesScan_step]
    norm_num [Nat.min_def]
  exact ⟨h, by rw [h]; simp⟩

/-- C8 (amended): over a store of exactly 120 rows with page size 50 the
batch loop issues exactly 4 scan calls, returning 50, 50, 20 and 0 rows,
and terminates; in general the loop terminates exactly when a page returns
zero rows — the last scan call (and only that one) returns an empty
page. -/
theorem processAllVerses_scan_behavior :
    (∀ rows : List BibleVerse, rows.length = 120 →
      processAllVersesScan rows 0 = [50, 50, 20, 0]) ∧
    (∀ (rows : List BibleVerse) (offset : Nat),
      (processAllVersesScan rows offset).getLast? = some 0 ∧
      ∀ s ∈ (processAllVersesScan rows offset).dropLast, s ≠ 0) := by
  constructor
  · intro rows hlen
    rw [processAllVersesScan_step, hlen]
    norm_num [Nat.min_def]
    rw [processAllVersesScan_step, hlen]
    norm_num [Nat.min_def]
    rw [processAllVersesScan_step, hlen]
    norm_num [Nat.min_def]
    rw [processAllVersesScan_step, hlen]
    norm_num [Nat.min_def]
  · intro rows offset
    exact processAllVersesScan_last_aux (rows.length - offset) rows offset
      le_rfl

/-- Witness for C8 (amended) at a concrete 120-row store. -/
theorem processAllVerses_scan_behavior_witness :
    processAllVersesScan (List.replicate 120 vGen1) 0 = [50, 50, 20, 0] :=
  processAllVerses_scan_behavior.1 (List.replicate 120 vGen1) (by simp)

/-- C5: `calculateConfidence` returns `0.1` on the empty list and
`min(0.95, 0.7 * max(relevances) + 0.3 * mean(relevances))` on a non-empty
list; in particular on `[0.92, 0.81]` it returns
`min(0.95, 0.7*0.92 + 0.3*0.865) = 0.9035 ≈ 0.904`. -/
theorem calculateConfidence_formula :
    calculateConfidence [] = 0.1 ∧
    (∀ l : List ℚ, l ≠ [] → ∃ m ∈ l, (∀ x ∈ l, x ≤ m) ∧
        calculateConfidence l = min 0.95 (0.7 * m + 0.3 * (l.sum / (l.length : ℚ)))) ∧
    calculateConfidence [0.92, 0.81] = min 0.95 (0.7 * 0.92 + 0.3 * ((0.92 + 0.81) / 2)) ∧
    calculateConfidence [0.92, 0.81] = 0.9035 := by
  refine ⟨rfl, ?_, ?_, ?_⟩
  · intro l hl
    match l with
    | r :: rest =>
      refine ⟨rest.foldl jsMax r, foldl_jsMax_mem r rest, ?_, ?_⟩
      · intro x hx
        rcases List.mem_cons.mp hx with h | h
        · rw [h]; exact (le_foldl_jsMax r rest).1
        · exact (le_foldl_jsMax r rest).2 x h
      · show jsMin 0.95 (rest.foldl jsMax r * 0.7 +
            (r :: rest).sum / (((r :: rest).length : Nat) : ℚ) * 0.3) = _
        rw [jsMin_eq_min]
        congr 1
        ring
  · rw [min_def]
    norm_num [calculateConfidence, jsMin, jsMax]
  · norm_num [calculateConfidence, jsMin, jsMax]

/-- Witness for C5 at the concrete relevance list `[0.92, 0.81]`. -/
theorem calculateConfidence_formula_witness :
    ∃ m ∈ [(0.92 : ℚ), 0.81], (∀ x ∈ [(0.92 : ℚ), 0.81], x ≤ m) ∧
      calculateConfidence [0.92, 0.81] =
        min 0.95 (0.7 * m + 0.3 * ([(0.92 : ℚ), 0.81].sum /
          (([(0.92 : ℚ), 0.81].length : Nat) : ℚ))) :=
  calculateConfidence_formula.2.1 [0.92, 0.81] (by decide)

theorem generateResponseFS_ok (env : FSEnv) (q : RAGQuery)
    (resp : FSResponse) (chunks : List GroundingChunk)
    (hinit : env.storeInitialized = true)
    (hok : env.generate (fsPromptOf q) = Except.ok resp)
    (hch : resp.groundingChunks = some chunks) :
    (generateResponseFS env q).contextVerses = chunks.map parseChunkToVerse ∧
    (generateResponseFS env q).relevanceScores =
      fsRelevanceScores chunks.length := by
  unfold generateResponseFS
  simp [hinit, hok, hch]

/-- C9: in provider-managed retrieval every grounding chunk is mapped to a
passage-shaped value — `contextPassages` has exactly the length of the
grounding-chunk list — and a chunk whose text yields no parsable
`"<book> <chapter>:<verse>"` locator becomes the synthetic placeholder verse
with `id = 0` (book name "Bible Context", reference "Context") rather than
being dropped. -/
theorem grounding_chunks_all_mapped (env : FSEnv) (q : RAGQuery)
    (resp : FSResponse) (chunks : List GroundingChunk)
    (hinit : env.storeInitialized = true)
    (hok : env.generate (fsPromptOf q) = Except.ok resp)
    (hch : resp.groundingChunks = some chunks) :
    (generateResponseFS env q).contextVerses = chunks.map parseChunkToVerse ∧
    (generateResponseFS env q).contextVerses.length = chunks.length ∧
    ∀ ch ∈ chunks, matchVerseRef (chunkTextOf ch).toList = none →
      parseChunkToVerse ch =
        { id := 0
          book_id := 0
          chapter := 1
          verse := 1
          text := chunkTextOf ch
          book_name := "Bible Context"
          reference := "Context"
          testament := Testament.Old } := by
  have hres := generateResponseFS_ok env q resp chunks hinit hok hch
  refine ⟨hres.1, ?_, ?_⟩
  · rw [hres.1]
    exact List.length_map _ _
  · intro ch hmem hnone
    simp only [parseChunkToVerse, hnone]

/-- Witness for C9 at a single unparsable grounding chunk. -/
theorem grounding_chunks_all_mapped_witness :
    (generateResponseFS fsEnvOk { query := "hope" }).contextVerses =
      [chunkUnparsable].map parseChunkToVerse ∧
    (generateResponseFS fsEnvOk { query := "hope" }).contextVerses.length =
      [chunkUnparsable].length ∧
    ∀ ch ∈ [chunkUnparsable],
      matchVerseRef (chunkTextOf ch).toList = none →
      parseChunkToVerse ch =
        { id := 0
          book_id := 0
          chapter := 1
          verse := 1
          text := chunkTextOf ch
          book_name := "Bible Context"
          reference := "Context"
          testament := Testament.Old } :=
  grounding_chunks_all_mapped fsEnvOk { query := "hope" }
    { text := "An answer.", groundingChunks := some [chunkUnparsable] }
    [chunkUnparsable] rfl rfl rfl

theorem fsRelevanceScores_length (n : Nat) : (fsRelevanceScores n).length = n := by
  unfold fsRelevanceScores
  rw [List.length_map, List.length_range]

theorem fsRelevanceScores_get (n i : Nat)
    (hi2 : i < (fsRelevanceScores n).length) :
    (fsRelevanceScores n).get ⟨i, hi2⟩ = max 0.7 (1.0 - (i : ℚ) * 0.05) := by
  rw [List.get_eq_getElem]
  unfold fsRelevanceScores
  rw [List.getElem_map, List.getElem_range, jsMax_eq_max]

/-- C10: the relevance scores attached in provider-managed retrieval are
synthetic and purely positional: entry `i` equals
`max(0.7, 1.0 - 0.05 * i)`, so the list is non-increasing and every entry
lies in `[0.7, 1.0]`, independent of retrieval quality; the list is as long
as the grounding-chunk list. -/
theorem fs_relevance_positional (env : FSEnv) (q : RAGQuery)
    (resp : FSResponse) (chunks : List GroundingChunk)
    (hinit : env.storeInitialized = true)
    (hok : env.generate (fsPromptOf q) = Except.ok resp)
    (hch : resp.groundingChunks = some chunks) :
    (generateResponseFS env q).relevanceScores =
      fsRelevanceScores chunks.length ∧
    (generateResponseFS env q).relevanceScores.length = chunks.length ∧
    (∀ (i : Nat) (hi : i < (generateResponseFS env q).relevanceScores.length),
      (generateResponseFS env q).relevanceScores.get ⟨i, hi⟩ =
        max 0.7 (1.0 - (i : ℚ) * 0.05)) ∧
    (generateResponseFS env q).relevanceScores.Pairwise (fun a b => b ≤ a) ∧
    (∀ x ∈ (generateResponseFS env q).relevanceScores,
      0.7 ≤ x ∧ x ≤ 1) := by
  have hrs := (generateResponseFS_ok env q resp chunks hinit hok hch).2
  have hlen : (generateResponseFS env q).relevanceScores.length =
      chunks.length := by
    rw [hrs, fsRelevanceScores_length]
  refine ⟨hrs, hlen, ?_, ?_, ?_⟩
  · intro i hi
    rw [List.get_of_eq hrs]
    exact fsRelevanceScores_get chunks.length i _
  · rw [hrs]
    unfold fsRelevanceScores
    rw [List.pairwise_map]
    refine (List.pairwise_lt_range _).imp ?_
    intro i j hij
    rw [jsMax_eq_max, jsMax_eq_max]
    refine max_le_max le_rfl ?_
    have : (i : ℚ) ≤ (j : ℚ) := by exact_mod_cast hij.le
    nlinarith
  · intro x hx
    rw [hrs] at hx
    unfold fsRelevanceScores at hx
    rcases List.mem_map.mp hx with ⟨i, hi, hxi⟩
    rw [← hxi, jsMax_eq_max]
    constructor
    · exact le_max_left _ _
    · refine max_le (by norm_num) ?_
      have : (0 : ℚ) ≤ (i : ℚ) * 0.05 :=
        mul_nonneg (Nat.cast_nonneg i) (by norm_num)
      linarith

/-- Witness for C10 at a single grounding chunk. -/
theorem fs_relevance_positional_witness :
    (generateResponseFS fsEnvOk { query := "hope" }).relevanceScores =
      fsRelevanceScores [chunkUnparsable].length ∧
    (generateResponseFS fsEnvOk { query := "hope" }).relevanceScores.length =
      [chunkUnparsable].length ∧
    (∀ (i : Nat)
      (hi : i < (generateResponseFS fsEnvOk
        { query := "hope" }).relevanceScores.length),
      (generateResponseFS fsEnvOk { query := "hope" }).relevanceScores.get
          ⟨i, hi⟩ =
        max 0.7 (1.0 - (i : ℚ) * 0.05)) ∧
    (generateResponseFS fsEnvOk
      { query := "hope" }).relevanceScores.Pairwise (fun a b => b ≤ a) ∧
    (∀ x ∈ (generateResponseFS fsEnvOk { query := "hope" }).relevanceScores,
      0.7 ≤ x ∧ x ≤ 1) :=
  fs_relevance_positional fsEnvOk { query := "hope" }
    { text := "An answer.", groundingChunks := some [chunkUnparsable] }
    [chunkUnparsable] rfl rfl rfl

end BibleRAG
